import Mathlib

/-!
Verification development for the passive-income repository.

Shallow embedding of the SQLite-backed trackers and the automation CLI:
tables become lists of row structures, SQL queries become list functions,
REAL columns become rationals, timestamps become integers (or strings where
the code compares ISO strings).  Python `round(x, 2)` is modelled by
`round2` (round-to-nearest on rationals).
-/

namespace PassiveIncome

/-- Models Python `round(x, 2)`: round to two decimal places.
(Python rounds ties to even on binary floats; we idealise with
round-to-nearest, which agrees except exactly at half-ulp ties.) -/
def round2 (q : ℚ) : ℚ := (round (q * 100) : ℚ) / 100

theorem round2_zero : round2 0 = 0 := by
  simp [round2]

theorem round2_mono {a b : ℚ} (h : a ≤ b) : round2 a ≤ round2 b := by
  unfold round2
  have h100 : a * 100 ≤ b * 100 := by nlinarith
  have : round (a * 100) ≤ round (b * 100) := by
    rw [round_eq, round_eq]
    exact Int.floor_le_floor (by linarith)
  have hc : ((round (a * 100) : ℚ)) ≤ ((round (b * 100) : ℚ)) := by exact_mod_cast this
  linarith

/-! ## Link tracker (src/src/link_tracker/tracker.py)

The `links` table schema (`_init_db`) has columns id, short_code,
original_url, product_name, program, commission, created_at, notes —
and no click, conversion, or revenue counter columns. -/

structure LinkRow where
  id : Nat
  short_code : String
  original_url : String
  product_name : String
  program : String
  commission : String
  created_at : Int
  notes : String
deriving Repr, DecidableEq

structure ClickRow where
  id : Nat
  link_id : Nat
  clicked_at : Int
  source : String
  platform : String
  campaign : String
deriving Repr, DecidableEq

structure ConversionRow where
  id : Nat
  link_id : Nat
  converted_at : Int
  amount : ℚ
  is_recurring : Bool
  notes : String
deriving Repr, DecidableEq

/-- The SQLite database behind `LinkTracker` (campaigns table omitted:
no claim touches it). -/
structure TrackerDB where
  links : List LinkRow
  clicks : List ClickRow
  conversions : List ConversionRow
deriving Repr, DecidableEq

/-- `LinkTracker.get_link_by_code`: `SELECT * FROM links WHERE short_code = ?`
with `fetchone` (short_code is UNIQUE; we take the first match). -/
def get_link_by_code (db : TrackerDB) (short_code : String) : Option LinkRow :=
  db.links.find? (fun l => l.short_code == short_code)

/-- AUTOINCREMENT id for a new clicks row. -/
def nextClickId (db : TrackerDB) : Nat :=
  (db.clicks.map (fun c => c.id)).foldr max 0 + 1

/-- AUTOINCREMENT id for a new conversions row. -/
def nextConversionId (db : TrackerDB) : Nat :=
  (db.conversions.map (fun c => c.id)).foldr max 0 + 1

/-- `LinkTracker.record_click`: look up the link; if absent return False,
else insert one clicks row (clicked_at defaults to the current time). -/
def record_click (db : TrackerDB) (now : Int)
    (short_code source platform campaign : String) : Bool × TrackerDB :=
  match get_link_by_code db short_code with
  | none => (false, db)
  | some l =>
      (true,
        { db with
          clicks := db.clicks ++
            [{ id := nextClickId db, link_id := l.id, clicked_at := now,
               source := source, platform := platform, campaign := campaign }] })

/-- `LinkTracker.record_conversion`: look up the link; if absent return
False, else insert one conversions row carrying amount, is_recurring, notes. -/
def record_conversion (db : TrackerDB) (now : Int) (short_code : String)
    (amount : ℚ) (is_recurring : Bool) (notes : String) : Bool × TrackerDB :=
  match get_link_by_code db short_code with
  | none => (false, db)
  | some l =>
      (true,
        { db with
          conversions := db.conversions ++
            [{ id := nextConversionId db, link_id := l.id, converted_at := now,
               amount := amount, is_recurring := is_recurring, notes := notes }] })

/-- Clicks rows whose link_id references link `l` (join condition
`l.id = c.link_id`). -/
def linkClicks (db : TrackerDB) (l : LinkRow) : List ClickRow :=
  db.clicks.filter (fun c => c.link_id == l.id)

/-- Conversions rows whose link_id references link `l`. -/
def linkConversions (db : TrackerDB) (l : LinkRow) : List ConversionRow :=
  db.conversions.filter (fun v => v.link_id == l.id)

/-- The row multiset of the `get_links` FROM clause for one `GROUP BY l.id`
group: `links l LEFT JOIN clicks c ON l.id = c.link_id LEFT JOIN
conversions cv ON l.id = cv.link_id`.  A LEFT JOIN with no match yields a
single row of NULLs (`none`); otherwise one row per match. -/
def leftJoinRows (db : TrackerDB) (l : LinkRow) :
    List (Option ClickRow × Option ConversionRow) :=
  let cs := (linkClicks db l).map some
  let cs := if cs.isEmpty then [none] else cs
  let vs := (linkConversions db l).map some
  let vs := if vs.isEmpty then [none] else vs
  (cs.map (fun c => vs.map (fun v => (c, v)))).flatten

/-- One output row of `LinkTracker.get_links` (the `l.*` columns plus the
three aggregates). -/
structure LinkStats where
  link : LinkRow
  total_clicks : Nat
  total_conversions : Nat
  total_revenue : ℚ
deriving Repr, DecidableEq

/-- Aggregates of the `get_links` query for one group:
`COUNT(DISTINCT c.id)`, `COUNT(DISTINCT cv.id)`,
`COALESCE(SUM(cv.amount), 0)` (COUNT and SUM ignore NULLs). -/
def linkStats (db : TrackerDB) (l : LinkRow) : LinkStats :=
  let rows := leftJoinRows db l
  { link := l
    total_clicks := ((rows.filterMap (fun r => r.1.map (fun c => c.id))).dedup).length
    total_conversions := ((rows.filterMap (fun r => r.2.map (fun v => v.id))).dedup).length
    total_revenue := (rows.filterMap (fun r => r.2.map (fun v => v.amount))).sum }

/-- `LinkTracker.get_links`: one aggregate row per link,
`ORDER BY l.created_at DESC LIMIT ?`. -/
def get_links (db : TrackerDB) (limit : Nat) : List LinkStats :=
  ((db.links.insertionSort (fun a b => b.created_at ≤ a.created_at)).map
    (linkStats db)).take limit

/-- Window filter `clicked_at >= now - days` of `get_dashboard_stats`
(`cutoff = datetime.now() - timedelta(days=days)`). -/
def clicksInWindow (db : TrackerDB) (now days : Int) : List ClickRow :=
  db.clicks.filter (fun c => decide (now - days ≤ c.clicked_at))

/-- Window filter `converted_at >= now - days` of `get_dashboard_stats`. -/
def conversionsInWindow (db : TrackerDB) (now days : Int) : List ConversionRow :=
  db.conversions.filter (fun v => decide (now - days ≤ v.converted_at))

/-- The scalar fields of the `LinkTracker.get_dashboard_stats` result
(top_links and clicks_by_platform are separate list outputs no claim
depends on and are omitted). -/
structure DashboardStats where
  period_days : Int
  total_clicks : Nat
  total_conversions : Nat
  conversion_rate : ℚ
  total_revenue : ℚ
  recurring_revenue : ℚ
  avg_revenue_per_conversion : ℚ
deriving Repr

/-- `LinkTracker.get_dashboard_stats`: counts and sums over the window,
with division guarded by `if total_clicks > 0` and
`if total_conversions > 0`, and results rounded to two decimals. -/
def get_dashboard_stats (db : TrackerDB) (now days : Int) : DashboardStats :=
  let total_clicks := (clicksInWindow db now days).length
  let total_conversions := (conversionsInWindow db now days).length
  let total_revenue := ((conversionsInWindow db now days).map (fun v => v.amount)).sum
  let recurring_revenue :=
    (((conversionsInWindow db now days).filter (fun v => v.is_recurring)).map
      (fun v => v.amount)).sum
  let conversion_rate : ℚ :=
    if 0 < total_clicks then (total_conversions : ℚ) / (total_clicks : ℚ) * 100 else 0
  { period_days := days
    total_clicks := total_clicks
    total_conversions := total_conversions
    conversion_rate := round2 conversion_rate
    total_revenue := round2 total_revenue
    recurring_revenue := round2 recurring_revenue
    avg_revenue_per_conversion :=
      if 0 < total_conversions then round2 (total_revenue / (total_conversions : ℚ)) else 0 }

/-! ## Theorems about the link tracker -/

/-- Concrete database: one link with two clicks and one conversion of
amount 10. -/
def fanoutDB : TrackerDB :=
  { links := [{ id := 1, short_code := "a", original_url := "u", product_name := "P",
                program := "", commission := "", created_at := 0, notes := "" }]
    clicks := [{ id := 1, link_id := 1, clicked_at := 0, source := "", platform := "",
                 campaign := "" },
               { id := 2, link_id := 1, clicked_at := 0, source := "", platform := "",
                 campaign := "" }]
    conversions := [{ id := 1, link_id := 1, converted_at := 0, amount := 10,
                      is_recurring := false, notes := "" }] }

/-- C1: for the link with two clicks and a single conversion of amount 10,
`get_links` reports total_clicks = 2 and total_conversions = 1 as the
claim states, but total_revenue = 20, not the sum 10 of the amounts of
the conversion rows referencing the link: the single LEFT JOIN row set
duplicates each conversion once per click, so `SUM(cv.amount)` is
inflated by the click count (the COUNTs are protected by DISTINCT, the
SUM is not). -/
theorem C1_get_links_revenue_fanout :
    ((get_links fanoutDB 50).map
        (fun s => (s.total_clicks, s.total_conversions, s.total_revenue)) =
      [(2, 1, (20 : ℚ))]) ∧
    ((fanoutDB.conversions.filter (fun v => v.link_id == 1)).map
        (fun v => v.amount)).sum = 10 ∧
    (20 : ℚ) ≠ 10 := by
  refine ⟨?_, by norm_num [fanoutDB], by norm_num⟩
  norm_num [get_links, fanoutDB, linkStats, leftJoinRows, linkClicks, linkConversions,
    List.insertionSort, List.orderedInsert]
  refine ⟨by decide, by decide, ?_⟩
  norm_num [List.filterMap_cons, List.sum_cons, List.sum_nil]

/-- C6: `record_click` returns True and appends exactly one clicks row
with the found link's id, leaving links and conversions unchanged, if and
only if a link with the short code exists; otherwise it returns False
and the database is unchanged.  The same for `record_conversion`, whose
row carries amount, is_recurring and notes. -/
theorem C6_record_click_and_conversion (db : TrackerDB) (now : Int)
    (code source platform campaign notes : String) (amount : ℚ) (recurring : Bool) :
    ((record_click db now code source platform campaign).1 = true ↔
      ∃ l ∈ db.links, l.short_code = code) ∧
    ((record_conversion db now code amount recurring notes).1 = true ↔
      ∃ l ∈ db.links, l.short_code = code) ∧
    (get_link_by_code db code = none →
      record_click db now code source platform campaign = (false, db) ∧
      record_conversion db now code amount recurring notes = (false, db)) ∧
    (∀ l, get_link_by_code db code = some l →
      record_click db now code source platform campaign =
        (true, { db with clicks := db.clicks ++
          [{ id := nextClickId db, link_id := l.id, clicked_at := now,
             source := source, platform := platform, campaign := campaign }] }) ∧
      record_conversion db now code amount recurring notes =
        (true, { db with conversions := db.conversions ++
          [{ id := nextConversionId db, link_id := l.id, converted_at := now,
             amount := amount, is_recurring := recurring, notes := notes }] })) := by
  have hiff : (get_link_by_code db code).isSome ↔ ∃ l ∈ db.links, l.short_code = code := by
    unfold get_link_by_code
    rw [List.find?_isSome]
    constructor
    · rintro ⟨l, hl, he⟩
      exact ⟨l, hl, by simpa using he⟩
    · rintro ⟨l, hl, he⟩
      exact ⟨l, hl, by simpa using he⟩
  cases h : get_link_by_code db code with
  | none =>
      have hex : ¬ ∃ l ∈ db.links, l.short_code = code := by
        rw [← hiff, h]
        simp
      refine ⟨?_, ?_, ?_, ?_⟩
      · simp only [record_click, h]
        simpa using hex
      · simp only [record_conversion, h]
        simpa using hex
      · intro _
        exact ⟨by simp only [record_click, h], by simp only [record_conversion, h]⟩
      · intro l hl
        exact Option.noConfusion hl
  | some l =>
      have hex : ∃ l ∈ db.links, l.short_code = code := by
        rw [← hiff, h]
        simp
      refine ⟨?_, ?_, ?_, ?_⟩
      · simp only [record_click, h]
        simpa using hex
      · simp only [record_conversion, h]
        simpa using hex
      · intro hn
        exact Option.noConfusion hn
      · intro l' hl'
        injection hl' with hll
        subst hll
        exact ⟨by simp only [record_click, h], by simp only [record_conversion, h]⟩

/-- Witness for C6 at a concrete database: the short code "a" exists in
`fanoutDB`, so `record_click` succeeds, and short code "zz" does not, so
the database is returned unchanged. -/
theorem C6_record_click_and_conversion_witness :
    (record_click fanoutDB 5 "a" "" "" "").1 = true ∧
    record_click fanoutDB 5 "zz" "" "" "" = (false, fanoutDB) := by
  constructor
  · exact (C6_record_click_and_conversion fanoutDB 5 "a" "" "" "" "" 10 false).1.mpr
      (by decide)
  · exact ((C6_record_click_and_conversion fanoutDB 5 "zz" "" "" "" "" 10 false).2.2.1
      (by decide)).1

/-- C9: `get_dashboard_stats` never divides by zero: conversion_rate is 0
when there are no clicks in the window and otherwise the rounded
conversions/clicks*100; avg_revenue_per_conversion is 0 when there are no
conversions in the window and otherwise the rounded revenue/conversions. -/
theorem C9_dashboard_guarded_division (db : TrackerDB) (now days : Int) :
    ((get_dashboard_stats db now days).total_clicks = 0 →
      (get_dashboard_stats db now days).conversion_rate = 0) ∧
    ((get_dashboard_stats db now days).total_clicks ≠ 0 →
      (get_dashboard_stats db now days).conversion_rate =
        round2 (((get_dashboard_stats db now days).total_conversions : ℚ) /
          ((get_dashboard_stats db now days).total_clicks : ℚ) * 100)) ∧
    ((get_dashboard_stats db now days).total_conversions = 0 →
      (get_dashboard_stats db now days).avg_revenue_per_conversion = 0) ∧
    ((get_dashboard_stats db now days).total_conversions ≠ 0 →
      (get_dashboard_stats db now days).avg_revenue_per_conversion =
        round2 ((((conversionsInWindow db now days).map (fun v => v.amount)).sum) /
          ((get_dashboard_stats db now days).total_conversions : ℚ))) := by
  unfold get_dashboard_stats
  refine ⟨?_, ?_, ?_, ?_⟩
  · intro h
    simp only at h
    simp [h, round2_zero]
  · intro h
    simp only at h
    have hpos : 0 < (clicksInWindow db now days).length := Nat.pos_of_ne_zero h
    simp [hpos]
  · intro h
    simp only at h
    simp [h]
  · intro h
    simp only at h
    have hpos : 0 < (conversionsInWindow db now days).length := Nat.pos_of_ne_zero h
    simp [hpos]

/-- Witness for C9 at the empty database and at `fanoutDB`. -/
theorem C9_dashboard_guarded_division_witness :
    (get_dashboard_stats { links := [], clicks := [], conversions := [] } 0 30).conversion_rate
      = 0 ∧
    (get_dashboard_stats fanoutDB 0 30).conversion_rate =
      round2 ((1 : ℚ) / (2 : ℚ) * 100) := by
  constructor
  · exact (C9_dashboard_guarded_division { links := [], clicks := [], conversions := [] }
      0 30).1 (by decide)
  · have h := (C9_dashboard_guarded_division fanoutDB 0 30).2.1 (by decide)
    have h1 : (get_dashboard_stats fanoutDB 0 30).total_conversions = 1 := by decide
    have h2 : (get_dashboard_stats fanoutDB 0 30).total_clicks = 2 := by decide
    rw [h, h1, h2]
    norm_num

/-! ## Adaptive engine (src/src/video_engine/adaptive_engine.py)

One `content_performance` row; timestamps are integers counted in days so
that `datetime('now', '-30 days')` is `now - 30`. -/

structure ContentRow where
  content_id : String
  platform : String
  content_type : String
  hook_style : String
  topic : String
  product : String
  posted_at : Int
  hour_posted : Nat
  day_of_week : Nat
  views : Int
  likes : Int
  comments : Int
  shares : Int
  clicks : Int
  conversions : Int
  revenue : ℚ
  performance_score : ℚ
deriving Repr, DecidableEq

/-- The `self.weights` dict of `AdaptiveEngine.__init__`. -/
def weightViews : ℚ := 1
/-- likes weight. -/
def weightLikes : ℚ := 5
/-- comments weight. -/
def weightComments : ℚ := 10
/-- shares weight. -/
def weightShares : ℚ := 15
/-- clicks weight ("Most valuable"). -/
def weightClicks : ℚ := 50

/-- The `score` computed inside `update_metrics`: it reads the call's
arguments (`v = views or 0`, etc.), treating an omitted metric as 0; it
does not read the stored row. -/
def argScore (views likes comments shares clicks : Option Int) : ℚ :=
  ((views.getD 0 : Int) : ℚ) * weightViews + ((likes.getD 0 : Int) : ℚ) * weightLikes +
  ((comments.getD 0 : Int) : ℚ) * weightComments +
  ((shares.getD 0 : Int) : ℚ) * weightShares +
  ((clicks.getD 0 : Int) : ℚ) * weightClicks

/-- Whether the `updates` list of `update_metrics` is nonempty, i.e. at
least one of the seven optional arguments was supplied. -/
def anyMetric (views likes comments shares clicks conversions : Option Int)
    (revenue : Option ℚ) : Bool :=
  views.isSome || likes.isSome || comments.isSome || shares.isSome ||
  clicks.isSome || conversions.isSome || revenue.isSome

/-- The UPDATE statement applied to the matching row: supplied metrics
overwrite the stored ones and performance_score is set to `argScore`. -/
def applyMetricsUpdate (r : ContentRow)
    (views likes comments shares clicks conversions : Option Int)
    (revenue : Option ℚ) : ContentRow :=
  { r with
    views := views.getD r.views
    likes := likes.getD r.likes
    comments := comments.getD r.comments
    shares := shares.getD r.shares
    clicks := clicks.getD r.clicks
    conversions := conversions.getD r.conversions
    revenue := revenue.getD r.revenue
    performance_score := argScore views likes comments shares clicks }

/-- `AdaptiveEngine.update_metrics` on the content_performance table.
Returns the table unchanged when the content_id is absent or no metric
is supplied. -/
def update_metrics (tbl : List ContentRow) (cid : String)
    (views likes comments shares clicks conversions : Option Int)
    (revenue : Option ℚ) : List ContentRow :=
  match tbl.find? (fun r => r.content_id == cid) with
  | none => tbl
  | some _ =>
      if anyMetric views likes comments shares clicks conversions revenue then
        tbl.map (fun r =>
          if r.content_id == cid then
            applyMetricsUpdate r views likes comments shares clicks conversions revenue
          else r)
      else tbl

/-- The formula of claim C2, written from the spec's words: the linear
weighted combination of the row's STORED engagement counters. -/
def storedWeightedScore (r : ContentRow) : ℚ :=
  (r.views : ℚ) * weightViews + (r.likes : ℚ) * weightLikes +
  (r.comments : ℚ) * weightComments + (r.shares : ℚ) * weightShares +
  (r.clicks : ℚ) * weightClicks

/-- A content row that already has 100 stored views. -/
def c2Row : ContentRow :=
  { content_id := "x", platform := "tiktok", content_type := "video",
    hook_style := "hook", topic := "t", product := "p", posted_at := 0,
    hour_posted := 0, day_of_week := 0, views := 100, likes := 0, comments := 0,
    shares := 0, clicks := 0, conversions := 0, revenue := 0,
    performance_score := 100 }

/-- C2 counterexample: calling update_metrics with only likes=2 on a row
with 100 stored views stores performance_score 10 (= 2*5 from the
supplied argument alone), while the weighted combination of the row's
stored counters after the update is 100*1 + 2*5 = 110. -/
theorem C2_counterexample :
    (update_metrics [c2Row] "x" none (some 2) none none none none none).map
      (fun r => (r.performance_score, storedWeightedScore r)) = [((10 : ℚ), 110)] ∧
    (10 : ℚ) ≠ 110 := by
  constructor
  · norm_num [update_metrics, c2Row, applyMetricsUpdate, anyMetric, argScore,
      storedWeightedScore, weightViews, weightLikes, weightComments, weightShares,
      weightClicks, List.find?]
  · norm_num

/-- C2 amended: after `update_metrics` with at least one supplied metric
on an existing content_id, every row carrying that content_id has
performance_score equal to the weighted combination
views*1 + likes*5 + comments*10 + shares*15 + clicks*50 of the values
supplied in the call, omitted metrics counted as 0. -/
theorem C2_update_metrics_score_from_args (tbl : List ContentRow) (cid : String)
    (views likes comments shares clicks conversions : Option Int) (revenue : Option ℚ)
    (hfound : (tbl.find? (fun r => r.content_id == cid)).isSome)
    (hany : anyMetric views likes comments shares clicks conversions revenue = true) :
    ∀ r ∈ update_metrics tbl cid views likes comments shares clicks conversions revenue,
      r.content_id = cid →
      r.performance_score =
        ((views.getD 0 : Int) : ℚ) * 1 + ((likes.getD 0 : Int) : ℚ) * 5 +
        ((comments.getD 0 : Int) : ℚ) * 10 + ((shares.getD 0 : Int) : ℚ) * 15 +
        ((clicks.getD 0 : Int) : ℚ) * 50 := by
  intro r hr hcid
  unfold update_metrics at hr
  cases hf : tbl.find? (fun r => r.content_id == cid) with
  | none =>
      rw [hf] at hfound
      simp at hfound
  | some r0 =>
      rw [hf] at hr
      rw [if_pos hany] at hr
      rw [List.mem_map] at hr
      obtain ⟨r1, _, heq⟩ := hr
      by_cases hb : (r1.content_id == cid) = true
      · rw [if_pos hb] at heq
        subst heq
        simp [applyMetricsUpdate, argScore, weightViews, weightLikes, weightComments,
          weightShares, weightClicks]
      · rw [if_neg hb] at heq
        subst heq
        exact absurd (by simpa using hcid) hb

/-- Witness for C2's amended theorem at the concrete row `c2Row` with
only likes=2 supplied: the stored score is 10. -/
theorem C2_update_metrics_score_from_args_witness :
    (applyMetricsUpdate c2Row none (some 2) none none none none
      none).performance_score = 10 := by
  have h := C2_update_metrics_score_from_args [c2Row] "x"
    none (some 2) none none none none none (by decide) (by decide)
  have hev : update_metrics [c2Row] "x" none (some 2) none none none none none =
      [applyMetricsUpdate c2Row none (some 2) none none none none none] := by
    simp [update_metrics, c2Row, anyMetric, List.find?]
  have hm : applyMetricsUpdate c2Row none (some 2) none none none none none ∈
      update_metrics [c2Row] "x" none (some 2) none none none none none := by
    rw [hev]
    exact List.mem_singleton_self _
  have hres := h _ hm rfl
  rw [hres]
  norm_num

/-! ### analyze_patterns -/

/-- The window filter of every analyze_patterns query:
`posted_at >= datetime('now', '-30 days')`. -/
def inWindow30 (now : Int) (r : ContentRow) : Bool :=
  decide (now - 30 ≤ r.posted_at)

/-- One SQL result row of a `GROUP BY key` query with
`COUNT(*), AVG(performance_score), SUM(clicks)`, before the Python dict
is built (avg_score still unrounded, as used by ORDER BY). -/
structure SqlGroup (α : Type) where
  value : α
  count : Nat
  avg_score : ℚ
  total_clicks : Int
deriving Repr, DecidableEq

/-- The rows of one group. -/
def rowsWithKey {α : Type} [DecidableEq α] (key : ContentRow → α)
    (rows : List ContentRow) (k : α) : List ContentRow :=
  rows.filter (fun r => decide (key r = k))

/-- The aggregates of one group. -/
def sqlGroup {α : Type} [DecidableEq α] (key : ContentRow → α)
    (rows : List ContentRow) (k : α) : SqlGroup α :=
  let g := rowsWithKey key rows k
  { value := k
    count := g.length
    avg_score := (g.map (fun r => r.performance_score)).sum / (g.length : ℚ)
    total_clicks := (g.map (fun r => r.clicks)).sum }

/-- The distinct group keys (`GROUP BY key`). -/
def groupKeys {α : Type} [DecidableEq α] (key : ContentRow → α)
    (rows : List ContentRow) : List α :=
  (rows.map key).dedup

/-- `ORDER BY avg_score DESC` as a non-strict relation. -/
def byAvgDesc {α : Type} (a b : SqlGroup α) : Prop := b.avg_score ≤ a.avg_score

instance {α : Type} : DecidableRel (@byAvgDesc α) :=
  fun a b => inferInstanceAs (Decidable (b.avg_score ≤ a.avg_score))

instance {α : Type} : IsTotal (SqlGroup α) byAvgDesc :=
  ⟨fun a b => le_total b.avg_score a.avg_score⟩

instance {α : Type} : IsTrans (SqlGroup α) byAvgDesc :=
  ⟨fun _ _ _ h1 h2 => le_trans h2 h1⟩

/-- `GROUP BY key HAVING count >= 3 ORDER BY avg_score DESC` (SQL leaves
the order of ties unspecified; insertion sort picks one such order). -/
def groupedByAvg {α : Type} [DecidableEq α] (key : ContentRow → α)
    (rows : List ContentRow) : List (SqlGroup α) :=
  (((groupKeys key rows).map (sqlGroup key rows)).filter
    (fun g => 3 ≤ g.count)).insertionSort byAvgDesc

/-- One SQL result row of the products query, which additionally selects
`SUM(conversions), SUM(revenue)`. -/
structure SqlProductGroup where
  value : String
  count : Nat
  avg_score : ℚ
  total_clicks : Int
  total_conversions : Int
  total_revenue : ℚ
deriving Repr, DecidableEq

/-- Aggregates of one products group. -/
def sqlProductGroup (rows : List ContentRow) (k : String) : SqlProductGroup :=
  let g := rowsWithKey (fun r => r.product) rows k
  { value := k
    count := g.length
    avg_score := (g.map (fun r => r.performance_score)).sum / (g.length : ℚ)
    total_clicks := (g.map (fun r => r.clicks)).sum
    total_conversions := (g.map (fun r => r.conversions)).sum
    total_revenue := (g.map (fun r => r.revenue)).sum }

/-- The products query's `ORDER BY total_revenue DESC, avg_score DESC`
as a non-strict relation. -/
def byRevenueThenAvgDesc (a b : SqlProductGroup) : Prop :=
  b.total_revenue < a.total_revenue ∨
    (a.total_revenue = b.total_revenue ∧ b.avg_score ≤ a.avg_score)

instance : DecidableRel byRevenueThenAvgDesc :=
  fun a b => inferInstanceAs (Decidable (_ ∨ _))

instance : IsTotal SqlProductGroup byRevenueThenAvgDesc := by
  constructor
  intro a b
  rcases lt_trichotomy a.total_revenue b.total_revenue with h | h | h
  · exact Or.inr (Or.inl h)
  · rcases le_total b.avg_score a.avg_score with h2 | h2
    · exact Or.inl (Or.inr ⟨h, h2⟩)
    · exact Or.inr (Or.inr ⟨h.symm, h2⟩)
  · exact Or.inl (Or.inl h)

instance : IsTrans SqlProductGroup byRevenueThenAvgDesc := by
  constructor
  intro a b c h1 h2
  rcases h1 with h1 | ⟨h1e, h1a⟩
  · rcases h2 with h2 | ⟨h2e, h2a⟩
    · exact Or.inl (lt_trans h2 h1)
    · exact Or.inl (h2e ▸ h1)
  · rcases h2 with h2 | ⟨h2e, h2a⟩
    · exact Or.inl (h1e ▸ h2)
    · exact Or.inr ⟨h1e.trans h2e, le_trans h2a h1a⟩

/-- The products pipeline: group, HAVING count >= 3, ORDER BY
total_revenue DESC, avg_score DESC. -/
def productsGrouped (rows : List ContentRow) : List SqlProductGroup :=
  (((groupKeys (fun r => r.product) rows).map (sqlProductGroup rows)).filter
    (fun g => 3 ≤ g.count)).insertionSort byRevenueThenAvgDesc

/-- The Python dict built for hooks/topics groups: value, count,
round(avg_score, 2), clicks. -/
structure PatternGroup (α : Type) where
  value : α
  count : Nat
  avg_score : ℚ
  clicks : Int
deriving Repr, DecidableEq

/-- Dict construction for one hooks/topics group. -/
def toPatternGroup {α : Type} (g : SqlGroup α) : PatternGroup α :=
  { value := g.value, count := g.count, avg_score := round2 g.avg_score,
    clicks := g.total_clicks }

/-- The Python dict built for best_times/best_days groups (no clicks
field; for best_days the Python code renders value 0..6 as a day name). -/
structure TimeGroup where
  value : Nat
  count : Nat
  avg_score : ℚ
deriving Repr, DecidableEq

/-- Dict construction for one best_times/best_days group. -/
def toTimeGroup (g : SqlGroup Nat) : TimeGroup :=
  { value := g.value, count := g.count, avg_score := round2 g.avg_score }

/-- The Python dict built for one products group. -/
structure ProductGroup where
  product : String
  count : Nat
  avg_score : ℚ
  clicks : Int
  conversions : Int
  revenue : ℚ
deriving Repr, DecidableEq

/-- Dict construction for one products group. -/
def toProductGroup (g : SqlProductGroup) : ProductGroup :=
  { product := g.value, count := g.count, avg_score := round2 g.avg_score,
    clicks := g.total_clicks, conversions := g.total_conversions,
    revenue := g.total_revenue }

/-- The result of `AdaptiveEngine.analyze_patterns`. -/
structure Patterns where
  hooks : List (PatternGroup String)
  topics : List (PatternGroup String)
  products : List ProductGroup
  best_times : List TimeGroup
  best_days : List TimeGroup
deriving Repr, DecidableEq

/-- `AdaptiveEngine.analyze_patterns`: five GROUP BY queries over the
rows posted within the last 30 days, each with HAVING count >= 3; hooks,
topics, times and days are ordered by avg_score descending, products by
total_revenue descending with avg_score as tie-breaker. -/
def analyze_patterns (now : Int) (tbl : List ContentRow) : Patterns :=
  let rows := tbl.filter (inWindow30 now)
  { hooks := (groupedByAvg (fun r => r.hook_style) rows).map toPatternGroup
    topics := (groupedByAvg (fun r => r.topic) rows).map toPatternGroup
    products := (productsGrouped rows).map toProductGroup
    best_times := (groupedByAvg (fun r => r.hour_posted) rows).map toTimeGroup
    best_days := (groupedByAvg (fun r => r.day_of_week) rows).map toTimeGroup }

/-! ### Theorems about analyze_patterns -/

theorem sorted_groupedByAvg {α : Type} [DecidableEq α] (key : ContentRow → α)
    (rows : List ContentRow) : List.Sorted byAvgDesc (groupedByAvg key rows) :=
  List.sorted_insertionSort byAvgDesc _

theorem mem_groupedByAvg {α : Type} [DecidableEq α] {key : ContentRow → α}
    {rows : List ContentRow} {g : SqlGroup α} (hg : g ∈ groupedByAvg key rows) :
    3 ≤ g.count ∧ g = sqlGroup key rows g.value := by
  unfold groupedByAvg at hg
  rw [List.mem_insertionSort, List.mem_filter] at hg
  obtain ⟨hmem, hcnt⟩ := hg
  rw [List.mem_map] at hmem
  obtain ⟨k, _, rfl⟩ := hmem
  exact ⟨by simpa using hcnt, rfl⟩

theorem sorted_productsGrouped (rows : List ContentRow) :
    List.Sorted byRevenueThenAvgDesc (productsGrouped rows) :=
  List.sorted_insertionSort byRevenueThenAvgDesc _

theorem mem_productsGrouped {rows : List ContentRow} {g : SqlProductGroup}
    (hg : g ∈ productsGrouped rows) :
    3 ≤ g.count ∧ g = sqlProductGroup rows g.value := by
  unfold productsGrouped at hg
  rw [List.mem_insertionSort, List.mem_filter] at hg
  obtain ⟨hmem, hcnt⟩ := hg
  rw [List.mem_map] at hmem
  obtain ⟨k, _, rfl⟩ := hmem
  exact ⟨by simpa using hcnt, rfl⟩

/-- A content row for the C4 counterexample (all six rows inside the
30-day window). -/
def c4Row (cid product : String) (score revenue : ℚ) : ContentRow :=
  { content_id := cid, platform := "tiktok", content_type := "video",
    hook_style := "hook", topic := "t", product := product, posted_at := 100,
    hour_posted := 12, day_of_week := 0, views := 0, likes := 0, comments := 0,
    shares := 0, clicks := 0, conversions := 0, revenue := revenue,
    performance_score := score }

/-- Product "A" has three rows with score 0 and total revenue 100;
product "B" has three rows with score 50 and no revenue. -/
def c4Rows : List ContentRow :=
  [c4Row "a1" "A" 0 100, c4Row "a2" "A" 0 0, c4Row "a3" "A" 0 0,
   c4Row "b1" "B" 50 0, c4Row "b2" "B" 50 0, c4Row "b3" "B" 50 0]

/-- The SQL row for group "A". -/
def c4GroupA : SqlProductGroup :=
  { value := "A", count := 3, avg_score := 0, total_clicks := 0,
    total_conversions := 0, total_revenue := 100 }

/-- The SQL row for group "B". -/
def c4GroupB : SqlProductGroup :=
  { value := "B", count := 3, avg_score := 50, total_clicks := 0,
    total_conversions := 0, total_revenue := 0 }

theorem c4_filter_eval : c4Rows.filter (inWindow30 100) = c4Rows := by decide

theorem c4_productsGrouped_eval : productsGrouped c4Rows = [c4GroupA, c4GroupB] := by
  have hkeys : groupKeys (fun r => r.product) c4Rows = ["A", "B"] := by decide
  have hrA : rowsWithKey (fun r => r.product) c4Rows "A" =
      [c4Row "a1" "A" 0 100, c4Row "a2" "A" 0 0, c4Row "a3" "A" 0 0] := by decide
  have hrB : rowsWithKey (fun r => r.product) c4Rows "B" =
      [c4Row "b1" "B" 50 0, c4Row "b2" "B" 50 0, c4Row "b3" "B" 50 0] := by decide
  have hA : sqlProductGroup c4Rows "A" = c4GroupA := by
    simp only [sqlProductGroup, hrA, c4GroupA, c4Row]
    norm_num [List.sum_cons, List.sum_nil]
  have hB : sqlProductGroup c4Rows "B" = c4GroupB := by
    simp only [sqlProductGroup, hrB, c4GroupB, c4Row]
    norm_num [List.sum_cons, List.sum_nil]
  have hrel : byRevenueThenAvgDesc c4GroupA c4GroupB := by
    left
    norm_num [c4GroupA, c4GroupB]
  unfold productsGrouped
  rw [hkeys]
  simp only [List.map_cons, List.map_nil, hA, hB]
  rw [show ([c4GroupA, c4GroupB].filter (fun g => 3 ≤ g.count)) =
    [c4GroupA, c4GroupB] from by decide]
  simp only [List.insertionSort, List.orderedInsert]
  rw [if_pos hrel]

theorem c4_products_eval :
    (analyze_patterns 100 c4Rows).products =
      [toProductGroup c4GroupA, toProductGroup c4GroupB] := by
  unfold analyze_patterns
  simp only [c4_filter_eval, c4_productsGrouped_eval, List.map_cons, List.map_nil]

/-- C4 counterexample: on `c4Rows`, analyze_patterns lists the products
in order of average score [0, 50], which is not descending: the products
query orders by `total_revenue DESC, avg_score DESC`, so product "A"
(revenue 100, average score 0) precedes product "B" (revenue 0, average
score 50). -/
theorem C4_counterexample :
    ((analyze_patterns 100 c4Rows).products.map (fun g => g.avg_score) =
      [(0 : ℚ), 50]) ∧
    ¬ List.Sorted (fun a b : ℚ => b ≤ a) [(0 : ℚ), 50] := by
  constructor
  · rw [c4_products_eval]
    simp only [List.map_cons, List.map_nil, toProductGroup]
    norm_num [c4GroupA, c4GroupB, round2, round_eq]
  · norm_num [List.sorted_cons]

/-- C4 amended: analyze_patterns returns, per dimension, only groups of
at least 3 rows posted within the last 30 days, each carrying its row
count and the (two-decimal rounded) average performance_score of exactly
its rows; hook styles, topics, posting hours and days of week are listed
in descending order of average score, while products are listed in
descending order of total revenue with average score as tie-breaker. -/
theorem C4_analyze_patterns_amended (now : Int) (tbl : List ContentRow) :
    (List.Sorted (fun a b : PatternGroup String => b.avg_score ≤ a.avg_score)
      (analyze_patterns now tbl).hooks) ∧
    (List.Sorted (fun a b : PatternGroup String => b.avg_score ≤ a.avg_score)
      (analyze_patterns now tbl).topics) ∧
    (List.Sorted (fun a b : TimeGroup => b.avg_score ≤ a.avg_score)
      (analyze_patterns now tbl).best_times) ∧
    (List.Sorted (fun a b : TimeGroup => b.avg_score ≤ a.avg_score)
      (analyze_patterns now tbl).best_days) ∧
    (List.Sorted (fun a b : ProductGroup =>
        b.revenue < a.revenue ∨ (a.revenue = b.revenue ∧ b.avg_score ≤ a.avg_score))
      (analyze_patterns now tbl).products) ∧
    (∀ g ∈ (analyze_patterns now tbl).hooks, 3 ≤ g.count ∧
      g = toPatternGroup (sqlGroup (fun r => r.hook_style)
        (tbl.filter (inWindow30 now)) g.value)) ∧
    (∀ g ∈ (analyze_patterns now tbl).topics, 3 ≤ g.count ∧
      g = toPatternGroup (sqlGroup (fun r => r.topic)
        (tbl.filter (inWindow30 now)) g.value)) ∧
    (∀ g ∈ (analyze_patterns now tbl).best_times, 3 ≤ g.count ∧
      g = toTimeGroup (sqlGroup (fun r => r.hour_posted)
        (tbl.filter (inWindow30 now)) g.value)) ∧
    (∀ g ∈ (analyze_patterns now tbl).best_days, 3 ≤ g.count ∧
      g = toTimeGroup (sqlGroup (fun r => r.day_of_week)
        (tbl.filter (inWindow30 now)) g.value)) ∧
    (∀ g ∈ (analyze_patterns now tbl).products, 3 ≤ g.count ∧
      g = toProductGroup (sqlProductGroup
        (tbl.filter (inWindow30 now)) g.product)) := by
  unfold analyze_patterns
  simp only []
  refine ⟨?_, ?_, ?_, ?_, ?_, ?_, ?_, ?_, ?_, ?_⟩
  · rw [List.Sorted, List.pairwise_map]
    exact (sorted_groupedByAvg _ _).imp (fun h => round2_mono h)
  · rw [List.Sorted, List.pairwise_map]
    exact (sorted_groupedByAvg _ _).imp (fun h => round2_mono h)
  · rw [List.Sorted, List.pairwise_map]
    exact (sorted_groupedByAvg _ _).imp (fun h => round2_mono h)
  · rw [List.Sorted, List.pairwise_map]
    exact (sorted_groupedByAvg _ _).imp (fun h => round2_mono h)
  · rw [List.Sorted, List.pairwise_map]
    refine (sorted_productsGrouped _).imp ?_
    rintro a b (h | ⟨he, ha⟩)
    · exact Or.inl h
    · exact Or.inr ⟨he, round2_mono ha⟩
  · intro g hg
    rw [List.mem_map] at hg
    obtain ⟨g', hg', rfl⟩ := hg
    obtain ⟨hc, he⟩ := mem_groupedByAvg hg'
    exact ⟨hc, by rw [show (toPatternGroup g').value = g'.value from rfl, ← he]⟩
  · intro g hg
    rw [List.mem_map] at hg
    obtain ⟨g', hg', rfl⟩ := hg
    obtain ⟨hc, he⟩ := mem_groupedByAvg hg'
    exact ⟨hc, by rw [show (toPatternGroup g').value = g'.value from rfl, ← he]⟩
  · intro g hg
    rw [List.mem_map] at hg
    obtain ⟨g', hg', rfl⟩ := hg
    obtain ⟨hc, he⟩ := mem_groupedByAvg hg'
    exact ⟨hc, by rw [show (toTimeGroup g').value = g'.value from rfl, ← he]⟩
  · intro g hg
    rw [List.mem_map] at hg
    obtain ⟨g', hg', rfl⟩ := hg
    obtain ⟨hc, he⟩ := mem_groupedByAvg hg'
    exact ⟨hc, by rw [show (toTimeGroup g').value = g'.value from rfl, ← he]⟩
  · intro g hg
    rw [List.mem_map] at hg
    obtain ⟨g', hg', rfl⟩ := hg
    obtain ⟨hc, he⟩ := mem_productsGrouped hg'
    exact ⟨hc, by rw [show (toProductGroup g').product = g'.value from rfl, ← he]⟩

/-- Witness for C4's amended theorem at the concrete table `c4Rows` and
the concrete group of product "A". -/
theorem C4_analyze_patterns_amended_witness :
    3 ≤ (toProductGroup c4GroupA).count ∧
    toProductGroup c4GroupA =
      toProductGroup (sqlProductGroup (c4Rows.filter (inWindow30 100))
        (toProductGroup c4GroupA).product) := by
  have hm : toProductGroup c4GroupA ∈ (analyze_patterns 100 c4Rows).products := by
    rw [c4_products_eval]
    exact List.mem_cons_self _ _
  exact (C4_analyze_patterns_amended 100 c4Rows).2.2.2.2.2.2.2.2.2 _ hm

/-! ## Performance tracker (src/src/video_engine/performance_tracker.py) -/

/-- The VideoPerformance dataclass. -/
structure VideoPerformance where
  video_id : String
  url : String
  views : Int
  likes : Int
  comments : Int
  shares : Int
  saves : Int
  play_time : ℚ
  posted_at : String
  scraped_at : String
  content_id : String
  hook_style : String
  product : String
deriving Repr, DecidableEq

/-- The engagement_rate property:
`(likes + comments + shares) / views * 100`, 0 when views is 0. -/
def VideoPerformance.engagement_rate (v : VideoPerformance) : ℚ :=
  if v.views = 0 then 0
  else ((v.likes : ℚ) + (v.comments : ℚ) + (v.shares : ℚ)) / (v.views : ℚ) * 100

/-- The viral_score property: 0 when views is 0, otherwise the sum of
four per-counter capped terms, clamped by `min(score, 100)`. -/
def VideoPerformance.viral_score (v : VideoPerformance) : ℚ :=
  if v.views = 0 then 0
  else
    let score : ℚ := 0
    let score := score + min ((v.views : ℚ) / 1000) 30
    let score := score + min (v.engagement_rate * 5) 30
    let score := score + min ((v.shares : ℚ) * 2) 20
    let score := score + min ((v.saves : ℚ)) 20
    min score 100

/-- A VideoPerformance with the given counters and empty metadata. -/
def mkVideo (views likes comments shares saves : Int) : VideoPerformance :=
  { video_id := "", url := "", views := views, likes := likes,
    comments := comments, shares := shares, saves := saves, play_time := 0,
    posted_at := "", scraped_at := "", content_id := "", hook_style := "",
    product := "" }

/-- The formula of the amended claim C3, written from its words: a
hand-weighted combination of per-counter terms, each capped (views/1000
up to 30, engagement rate * 5 up to 30, shares * 2 up to 20, saves up to
20), clamped to at most 100, and 0 when views is 0. -/
def cappedViralFormula (views likes comments shares saves : Int) : ℚ :=
  if views = 0 then 0
  else
    min (min ((views : ℚ) / 1000) 30 +
         min ((((likes : ℚ) + (comments : ℚ) + (shares : ℚ)) / (views : ℚ) * 100) * 5) 30 +
         min ((shares : ℚ) * 2) 20 +
         min ((saves : ℚ)) 20) 100

/-- One row of the video_performance table; SQL compares the ISO text
scraped_at lexicographically. -/
structure VideoRow where
  video_id : String
  url : String
  views : Int
  likes : Int
  comments : Int
  shares : Int
  saves : Int
  play_time : ℚ
  engagement_rate : ℚ
  viral_score : ℚ
  content_id : String
  hook_style : String
  product : String
  posted_at : String
  scraped_at : String
deriving Repr, DecidableEq

/-- `ORDER BY viral_score DESC` of the top_videos query. -/
def byViralDesc (a b : VideoRow) : Prop := b.viral_score ≤ a.viral_score

instance : DecidableRel byViralDesc :=
  fun a b => inferInstanceAs (Decidable (b.viral_score ≤ a.viral_score))

instance : IsTotal VideoRow byViralDesc :=
  ⟨fun a b => le_total b.viral_score a.viral_score⟩

instance : IsTrans VideoRow byViralDesc :=
  ⟨fun _ _ _ h1 h2 => le_trans h2 h1⟩

/-- One entry of the top_videos list built by get_performance_summary
(engagement_rate and viral_score rounded to two decimals). -/
structure TopVideo where
  video_id : String
  views : Int
  likes : Int
  engagement_rate : ℚ
  viral_score : ℚ
  hook_style : String
  product : String
deriving Repr, DecidableEq

/-- The top_videos part of `PerformanceTracker.get_performance_summary`:
`SELECT ... FROM video_performance WHERE scraped_at > ? ORDER BY
viral_score DESC LIMIT 5` and the Python dict per row. -/
def top_videos (rows : List VideoRow) (cutoff : String) : List TopVideo :=
  (((rows.filter (fun r => decide (cutoff < r.scraped_at))).insertionSort
      byViralDesc).take 5).map
    (fun r =>
      { video_id := r.video_id, views := r.views, likes := r.likes,
        engagement_rate := round2 r.engagement_rate,
        viral_score := round2 r.viral_score,
        hook_style := r.hook_style, product := r.product })

/-! ### Theorems about viral_score -/

/-- C3 counterexample: viral_score is not a linear combination of the
engagement counters: any weights fitting viral_score at 1000 views (= 1)
would give 100 at 100000 views, where viral_score is capped at 30. -/
theorem C3_counterexample :
    ¬ ∃ w1 w2 w3 w4 w5 : ℚ, ∀ views likes comments shares saves : Int,
      (mkVideo views likes comments shares saves).viral_score =
        w1 * (views : ℚ) + w2 * (likes : ℚ) + w3 * (comments : ℚ) +
        w4 * (shares : ℚ) + w5 * (saves : ℚ) := by
  rintro ⟨w1, w2, w3, w4, w5, h⟩
  have h1 := h 1000 0 0 0 0
  have h2 := h 100000 0 0 0 0
  have e1 : (mkVideo 1000 0 0 0 0).viral_score = 1 := by
    norm_num [VideoPerformance.viral_score, VideoPerformance.engagement_rate,
      mkVideo, min_def]
  have e2 : (mkVideo 100000 0 0 0 0).viral_score = 30 := by
    norm_num [VideoPerformance.viral_score, VideoPerformance.engagement_rate,
      mkVideo, min_def]
  rw [e1] at h1
  rw [e2] at h2
  push_cast at h1 h2
  linarith

/-- C3 amended: viral_score equals the capped hand-weighted combination
of the five engagement counters (not an uncapped linear one), and
get_performance_summary lists its top videos in descending order of
(rounded) viral_score. -/
theorem C3_viral_score_capped_and_sorting :
    (∀ v : VideoPerformance,
      v.viral_score = cappedViralFormula v.views v.likes v.comments v.shares v.saves) ∧
    (∀ (rows : List VideoRow) (cutoff : String),
      List.Sorted (fun a b : TopVideo => b.viral_score ≤ a.viral_score)
        (top_videos rows cutoff)) := by
  constructor
  · intro v
    unfold VideoPerformance.viral_score cappedViralFormula
      VideoPerformance.engagement_rate
    by_cases h : v.views = 0
    · rw [if_pos h, if_pos h]
    · rw [if_neg h, if_neg h, if_neg h]
      ring_nf
  · intro rows cutoff
    unfold top_videos
    rw [List.Sorted, List.pairwise_map]
    have hs : List.Sorted byViralDesc
        (((rows.filter (fun r => decide (cutoff < r.scraped_at))).insertionSort
          byViralDesc).take 5) := by
      rw [List.Sorted, List.pairwise_iff_forall_sublist]
      intro a b hab
      exact List.pairwise_iff_forall_sublist.mp
        (List.sorted_insertionSort byViralDesc _)
        (hab.trans (List.take_sublist _ _))
    exact hs.imp (fun h => round2_mono h)

/-- C10: with non-negative counters, engagement_rate and viral_score are
0 when views is 0, and viral_score never exceeds 100. -/
theorem C10_engagement_viral_bounds (v : VideoPerformance)
    (hviews : 0 ≤ v.views) (hlikes : 0 ≤ v.likes) (hcomments : 0 ≤ v.comments)
    (hshares : 0 ≤ v.shares) (hsaves : 0 ≤ v.saves) :
    (v.views = 0 → v.engagement_rate = 0 ∧ v.viral_score = 0) ∧
    v.viral_score ≤ 100 := by
  constructor
  · intro h
    constructor
    · rw [VideoPerformance.engagement_rate, if_pos h]
    · rw [VideoPerformance.viral_score, if_pos h]
  · rw [VideoPerformance.viral_score]
    split_ifs with h
    · norm_num
    · exact min_le_right _ _

/-- Witness for C10 at a concrete video with 0 views and nonzero other
counters. -/
theorem C10_engagement_viral_bounds_witness :
    ((mkVideo 0 5 5 5 5).engagement_rate = 0 ∧ (mkVideo 0 5 5 5 5).viral_score = 0) ∧
    (mkVideo 0 5 5 5 5).viral_score ≤ 100 := by
  have h := C10_engagement_viral_bounds (mkVideo 0 5 5 5 5)
    (by decide) (by decide) (by decide) (by decide) (by decide)
  exact ⟨h.1 rfl, h.2⟩

/-! ## Content scheduler (src/src/video_engine/auto_poster.py)

The scheduled_posts table with the operations of `ContentScheduler` that
write it.  (post_analytics rows never touch scheduled_posts.status.) -/

structure ScheduledPost where
  id : Nat
  content_type : String
  platform : String
  content_path : String
  caption : String
  hashtags : String
  scheduled_time : Int
  posted_time : Option Int
  status : String
  post_url : Option String
  error_message : Option String
deriving Repr, DecidableEq

/-- AUTOINCREMENT id for a new scheduled_posts row. -/
def nextPostId (tbl : List ScheduledPost) : Nat :=
  (tbl.map (fun r => r.id)).foldr max 0 + 1

/-- The row inserted by `ContentScheduler.schedule_post`: content_type
from the file extension, hashtags joined by spaces, `status 'pending'`. -/
def newScheduledPost (tbl : List ScheduledPost) (platform content_path caption : String)
    (hashtags : List String) (scheduled_time : Int) : ScheduledPost :=
  { id := nextPostId tbl
    content_type :=
      if content_path.endsWith ".mp4" || content_path.endsWith ".mov" then "video"
      else "text"
    platform := platform
    content_path := content_path
    caption := caption
    hashtags := String.intercalate " " hashtags
    scheduled_time := scheduled_time
    posted_time := none
    status := "pending"
    post_url := none
    error_message := none }

/-- `ContentScheduler.schedule_post` (returns the new row id and the
table). -/
def schedule_post (tbl : List ScheduledPost) (platform content_path caption : String)
    (hashtags : List String) (scheduled_time : Int) : Nat × List ScheduledPost :=
  let row := newScheduledPost tbl platform content_path caption hashtags scheduled_time
  (row.id, tbl ++ [row])

/-- `ContentScheduler.mark_posted`: `SET status = 'posted',
posted_time = ?, post_url = ? WHERE id = ?`. -/
def mark_posted (tbl : List ScheduledPost) (post_id : Nat) (post_url : Option String)
    (now : Int) : List ScheduledPost :=
  tbl.map (fun r =>
    if r.id == post_id then
      { r with status := "posted", posted_time := some now, post_url := post_url }
    else r)

/-- `ContentScheduler.mark_failed`: `SET status = 'failed',
error_message = ? WHERE id = ?`. -/
def mark_failed (tbl : List ScheduledPost) (post_id : Nat) (error : String) :
    List ScheduledPost :=
  tbl.map (fun r =>
    if r.id == post_id then { r with status := "failed", error_message := some error }
    else r)

/-- The operations of `ContentScheduler` that write the scheduled_posts
table (`get_pending_posts` and `get_analytics_summary` only read it, and
`record_analytics` writes the separate post_analytics table). -/
inductive SchedOp : Type
  | schedule (platform content_path caption : String) (hashtags : List String)
      (scheduled_time : Int)
  | markPosted (post_id : Nat) (post_url : Option String) (now : Int)
  | markFailed (post_id : Nat) (error : String)
deriving Repr, DecidableEq

/-- Apply one write operation. -/
def applyOp (tbl : List ScheduledPost) : SchedOp → List ScheduledPost
  | .schedule platform content_path caption hashtags scheduled_time =>
      (schedule_post tbl platform content_path caption hashtags scheduled_time).2
  | .markPosted post_id post_url now => mark_posted tbl post_id post_url now
  | .markFailed post_id error => mark_failed tbl post_id error

/-- Run a sequence of write operations from the freshly created (empty)
table. -/
def runOps (ops : List SchedOp) : List ScheduledPost :=
  ops.foldl applyOp []

/-- C5: every scheduled_posts row reachable by ContentScheduler
operations has status 'pending', 'posted' or 'failed'; schedule_post
inserts with status 'pending'; mark_posted is the only operation setting
'posted' (also setting posted_time) and mark_failed the only one setting
'failed' (also setting error_message): a row's status changes only to
one the matching operation writes, and rows not matching the operation's
id are untouched. -/
theorem C5_status_invariant :
    (∀ (ops : List SchedOp), ∀ r ∈ runOps ops,
      r.status = "pending" ∨ r.status = "posted" ∨ r.status = "failed") ∧
    (∀ (tbl : List ScheduledPost) (platform content_path caption : String)
        (hashtags : List String) (scheduled_time : Int),
      (schedule_post tbl platform content_path caption hashtags scheduled_time).2 =
        tbl ++ [newScheduledPost tbl platform content_path caption hashtags
          scheduled_time] ∧
      (newScheduledPost tbl platform content_path caption hashtags
        scheduled_time).status = "pending") ∧
    (∀ (tbl : List ScheduledPost) (post_id : Nat) (post_url : Option String)
        (now : Int), ∀ r ∈ mark_posted tbl post_id post_url now,
      (r.id = post_id → r.status = "posted" ∧ r.posted_time = some now) ∧
      (r.id ≠ post_id → r ∈ tbl)) ∧
    (∀ (tbl : List ScheduledPost) (post_id : Nat) (error : String),
      ∀ r ∈ mark_failed tbl post_id error,
      (r.id = post_id → r.status = "failed" ∧ r.error_message = some error) ∧
      (r.id ≠ post_id → r ∈ tbl)) ∧
    (∀ (tbl : List ScheduledPost) (op : SchedOp), ∀ r ∈ applyOp tbl op,
      r.status = "pending" ∨ r.status = "posted" ∨ r.status = "failed" ∨
      ∃ r0 ∈ tbl, r0.status = r.status) := by
  have hsched : ∀ (tbl : List ScheduledPost) (platform content_path caption : String)
      (hashtags : List String) (scheduled_time : Int),
      (schedule_post tbl platform content_path caption hashtags scheduled_time).2 =
        tbl ++ [newScheduledPost tbl platform content_path caption hashtags
          scheduled_time] ∧
      (newScheduledPost tbl platform content_path caption hashtags
        scheduled_time).status = "pending" := by
    intro tbl platform content_path caption hashtags scheduled_time
    exact ⟨rfl, rfl⟩
  have hposted : ∀ (tbl : List ScheduledPost) (post_id : Nat) (post_url : Option String)
      (now : Int), ∀ r ∈ mark_posted tbl post_id post_url now,
      (r.id = post_id → r.status = "posted" ∧ r.posted_time = some now) ∧
      (r.id ≠ post_id → r ∈ tbl) := by
    intro tbl post_id post_url now r hr
    rw [mark_posted, List.mem_map] at hr
    obtain ⟨r0, hr0, heq⟩ := hr
    by_cases hb : (r0.id == post_id) = true
    · rw [if_pos hb] at heq
      subst heq
      have hid : r0.id = post_id := by simpa using hb
      exact ⟨fun _ => ⟨rfl, rfl⟩, fun hne => absurd hid hne⟩
    · rw [if_neg hb] at heq
      subst heq
      exact ⟨fun hid => absurd hid (by simpa using hb), fun _ => hr0⟩
  have hfailed : ∀ (tbl : List ScheduledPost) (post_id : Nat) (error : String),
      ∀ r ∈ mark_failed tbl post_id error,
      (r.id = post_id → r.status = "failed" ∧ r.error_message = some error) ∧
      (r.id ≠ post_id → r ∈ tbl) := by
    intro tbl post_id error r hr
    rw [mark_failed, List.mem_map] at hr
    obtain ⟨r0, hr0, heq⟩ := hr
    by_cases hb : (r0.id == post_id) = true
    · rw [if_pos hb] at heq
      subst heq
      have hid : r0.id = post_id := by simpa using hb
      exact ⟨fun _ => ⟨rfl, rfl⟩, fun hne => absurd hid hne⟩
    · rw [if_neg hb] at heq
      subst heq
      exact ⟨fun hid => absurd hid (by simpa using hb), fun _ => hr0⟩
  have hstep : ∀ (tbl : List ScheduledPost) (op : SchedOp), ∀ r ∈ applyOp tbl op,
      r.status = "pending" ∨ r.status = "posted" ∨ r.status = "failed" ∨
      ∃ r0 ∈ tbl, r0.status = r.status := by
    intro tbl op r hr
    cases op with
    | schedule platform content_path caption hashtags scheduled_time =>
        rw [applyOp, (hsched tbl platform content_path caption hashtags
          scheduled_time).1, List.mem_append] at hr
        cases hr with
        | inl h => exact Or.inr (Or.inr (Or.inr ⟨r, h, rfl⟩))
        | inr h =>
            rw [List.mem_singleton] at h
            rw [h]
            exact Or.inl rfl
    | markPosted post_id post_url now =>
        rw [applyOp] at hr
        obtain ⟨hmatch, hnomatch⟩ := hposted tbl post_id post_url now r hr
        by_cases hid : r.id = post_id
        · exact Or.inr (Or.inl (hmatch hid).1)
        · exact Or.inr (Or.inr (Or.inr ⟨r, hnomatch hid, rfl⟩))
    | markFailed post_id error =>
        rw [applyOp] at hr
        obtain ⟨hmatch, hnomatch⟩ := hfailed tbl post_id error r hr
        by_cases hid : r.id = post_id
        · exact Or.inr (Or.inr (Or.inl (hmatch hid).1))
        · exact Or.inr (Or.inr (Or.inr ⟨r, hnomatch hid, rfl⟩))
  refine ⟨?_, hsched, hposted, hfailed, hstep⟩
  intro ops
  have hgen : ∀ (tbl : List ScheduledPost),
      (∀ r ∈ tbl, r.status = "pending" ∨ r.status = "posted" ∨ r.status = "failed") →
      ∀ r ∈ List.foldl applyOp tbl ops,
        r.status = "pending" ∨ r.status = "posted" ∨ r.status = "failed" := by
    induction ops with
    | nil => intro tbl h r hr; exact h r hr
    | cons op rest ih =>
        intro tbl h r hr
        rw [List.foldl_cons] at hr
        refine ih (applyOp tbl op) ?_ r hr
        intro r1 hr1
        rcases hstep tbl op r1 hr1 with h1 | h1 | h1 | ⟨r0, hr0, he⟩
        · exact Or.inl h1
        · exact Or.inr (Or.inl h1)
        · exact Or.inr (Or.inr h1)
        · rw [← he]
          exact h r0 hr0
  exact hgen [] (by intro r hr; cases hr)

/-- Witness for C5: the row produced by a concrete one-operation run has
one of the three legal statuses. -/
theorem C5_status_invariant_witness :
    (newScheduledPost [] "tiktok" "a.mp4" "cap" [] 0).status = "pending" ∨
    (newScheduledPost [] "tiktok" "a.mp4" "cap" [] 0).status = "posted" ∨
    (newScheduledPost [] "tiktok" "a.mp4" "cap" [] 0).status = "failed" := by
  refine C5_status_invariant.1 [SchedOp.schedule "tiktok" "a.mp4" "cap" [] 0] _ ?_
  show newScheduledPost [] "tiktok" "a.mp4" "cap" [] 0 ∈
    ([] ++ [newScheduledPost [] "tiktok" "a.mp4" "cap" [] 0])
  exact List.mem_append_right _ (List.mem_singleton_self _)

/-! ## Full automation CLI (src/automate.py)

`run_cycle` is modelled with its external collaborators as oracle
parameters: `genScript style i` is `content_gen.generate_tiktok_script`
(the pure template generator), `createVideo i s` is the external video
encoder pipeline (None when creation fails), and `ts i` is the
`datetime.now().strftime(...)` stamp taken at iteration `i`. -/

/-- The script dict fields that run_cycle reads. -/
structure Script where
  style : String
  product : String
  hook : String
  caption : String
  script : String
  hashtags : List String
  cta : String
deriving Repr, DecidableEq

/-- One entry of the `videos` result list of run_cycle. -/
structure VideoResult where
  path : Option String
  script : Script
  content_id : String
deriving Repr, DecidableEq

/-- The externally visible actions of run_cycle steps 3 and 4 (stdout
reporting of the video-creation skip, script JSON saves, TikTok queueing,
schedule records, adaptive-engine records). -/
inductive CycleEffect : Type
  | printSkipVideoCreation
  | saveScriptJson (file_path : String) (s : Script)
  | queueTiktok (video_path caption : String) (hashtags : List String)
  | schedulePost (platform video_path caption : String) (hashtags : List String)
  | recordContent (content_id platform content_type hook_style topic product : String)
deriving Repr, DecidableEq

/-- Step 3 of run_cycle: with FFmpeg available, one entry per successful
video creation (content_id prefix "auto_"); without it, one entry per
script with path None (content_id prefix "script_"). -/
def cycleVideos (canCreateVideo : Bool) (createVideo : Nat → Script → Option String)
    (ts : Nat → String) (scripts : List Script) : List VideoResult :=
  if canCreateVideo then
    scripts.enum.filterMap (fun p =>
      (createVideo p.1 p.2).map (fun vpath =>
        { path := some vpath, script := p.2,
          content_id := "auto_" ++ ts p.1 ++ "_" ++ toString p.1 }))
  else
    scripts.enum.map (fun p =>
      { path := none, script := p.2,
        content_id := "script_" ++ ts p.1 ++ "_" ++ toString p.1 })

/-- Step 4 of run_cycle for one entry: queue + schedule when a video file
exists, otherwise save the script as JSON under content/scripts; always
record the content for learning. -/
def queueEffects (niche : String) (v : VideoResult) : List CycleEffect :=
  match v.path with
  | some p =>
      [.queueTiktok p v.script.caption v.script.hashtags,
       .schedulePost "tiktok" p v.script.caption v.script.hashtags,
       .recordContent v.content_id "tiktok" "video" v.script.style niche
         v.script.product]
  | none =>
      [.saveScriptJson ("content/scripts/" ++ v.content_id ++ ".json") v.script,
       .recordContent v.content_id "tiktok" "video" v.script.style niche
         v.script.product]

/-- What one run_cycle call produces. -/
structure CycleResult where
  scripts : List Script
  videos : List VideoResult
  effects : List CycleEffect
deriving Repr, DecidableEq

/-- `FullAutomation.run_cycle`: generate `numVideos` scripts (the last
one with style "random", the others with the recommended hook style),
create videos when possible, then queue/save and record each entry. -/
def run_cycle (niche preferredHook : String) (canCreateVideo : Bool)
    (createVideo : Nat → Script → Option String) (genScript : String → Nat → Script)
    (ts : Nat → String) (numVideos : Nat) : CycleResult :=
  let scripts := (List.range numVideos).map (fun i =>
    if i < numVideos - 1 then genScript preferredHook i else genScript "random" i)
  let videos := cycleVideos canCreateVideo createVideo ts scripts
  let skipEffects :=
    if canCreateVideo then ([] : List CycleEffect)
    else [CycleEffect.printSkipVideoCreation]
  { scripts := scripts
    videos := videos
    effects := skipEffects ++ (videos.map (queueEffects niche)).flatten }

/-- The CLI commands of automate.py `main`. -/
inductive CliCmd : Type
  | interactive
  | run (count : Int)
  | generate (count : Int)
  | status
  | learn
  | help
  | unknown (cmd : String)
deriving Repr, DecidableEq

/-- Python `str.lower()` (per-character lowering). -/
def pyLower (s : String) : String := String.mk (s.data.map Char.toLower)

/-- The digits of a Python decimal integer literal. -/
def pyDigits? (cs : List Char) : Option Nat :=
  if cs.isEmpty then none
  else if cs.all (fun c => c.isDigit) then
    some (cs.foldl (fun acc c => acc * 10 + (c.toNat - Char.toNat (Char.ofNat 48))) 0)
  else none

/-- Python `int(s)` on a decimal string with optional sign; `none` where
int() raises ValueError. -/
def pyInt? (s : String) : Option Int :=
  match s.data with
  | '-' :: rest => (pyDigits? rest).map (fun n => -(n : Int))
  | '+' :: rest => (pyDigits? rest).map (fun n => (n : Int))
  | cs => (pyDigits? cs).map (fun n => (n : Int))

/-- The argv dispatch of automate.py `main` (args is sys.argv[1:]);
`none` models the uncaught ValueError of `int(sys.argv[2])` on a
non-integer count. -/
def parseCliArgs (args : List String) : Option CliCmd :=
  match args with
  | [] => some CliCmd.interactive
  | cmd :: rest =>
      let c := pyLower cmd
      if c = "run" then
        match rest with
        | [] => some (CliCmd.run 3)
        | s :: _ => (pyInt? s).map (fun n => CliCmd.run n)
      else if c = "generate" then
        match rest with
        | [] => some (CliCmd.generate 5)
        | s :: _ => (pyInt? s).map (fun n => CliCmd.generate n)
      else if c = "status" then some CliCmd.status
      else if c = "learn" then some CliCmd.learn
      else if c = "help" then some CliCmd.help
      else some (CliCmd.unknown c)

/-- The `generate` command's loop: `for i in range(count)` calling the
script generator once per iteration. -/
def generateScripts (genScript : Nat → Script) (count : Int) : List Script :=
  (List.range count.toNat).map genScript

theorem length_filterMap_of_forall_isSome {α β : Type} {f : α → Option β}
    {l : List α} (h : ∀ a ∈ l, (f a).isSome) :
    (l.filterMap f).length = l.length := by
  induction l with
  | nil => rfl
  | cons a t ih =>
      rw [List.filterMap_cons]
      cases hf : f a with
      | none =>
          have := h a (List.mem_cons_self a t)
          rw [hf] at this
          simp at this
      | some b =>
          simp only [List.length_cons,
            ih (fun x hx => h x (List.mem_cons_of_mem a hx))]

/-- C7: with the video encoder unavailable, run_cycle totals: it produces
one result entry per generated script, each with path None, reports the
skip on stdout, and emits a JSON save under content/scripts for every
entry's script. -/
theorem C7_run_cycle_degraded (niche preferredHook : String)
    (createVideo : Nat → Script → Option String) (genScript : String → Nat → Script)
    (ts : Nat → String) (numVideos : Nat) :
    ((run_cycle niche preferredHook false createVideo genScript ts
        numVideos).videos.length = numVideos) ∧
    ((run_cycle niche preferredHook false createVideo genScript ts
        numVideos).videos.map (fun v => v.script) =
      (run_cycle niche preferredHook false createVideo genScript ts
        numVideos).scripts) ∧
    ((run_cycle niche preferredHook false createVideo genScript ts
        numVideos).scripts.length = numVideos) ∧
    (∀ v ∈ (run_cycle niche preferredHook false createVideo genScript ts
        numVideos).videos, v.path = none) ∧
    (CycleEffect.printSkipVideoCreation ∈
      (run_cycle niche preferredHook false createVideo genScript ts
        numVideos).effects) ∧
    (∀ v ∈ (run_cycle niche preferredHook false createVideo genScript ts
        numVideos).videos,
      CycleEffect.saveScriptJson ("content/scripts/" ++ v.content_id ++ ".json")
          v.script ∈
        (run_cycle niche preferredHook false createVideo genScript ts
          numVideos).effects) := by
  unfold run_cycle cycleVideos
  simp only [if_neg (Bool.false_ne_true), Bool.false_eq_true, if_false]
  refine ⟨?_, ?_, ?_, ?_, ?_, ?_⟩
  · rw [List.length_map, List.enum_length, List.length_map, List.length_range]
  · rw [List.map_map]
    have : ((fun v : VideoResult => v.script) ∘ (fun p : Nat × Script =>
        ({ path := none, script := p.2,
           content_id := "script_" ++ ts p.1 ++ "_" ++ toString p.1 } : VideoResult))) =
        Prod.snd := by
      funext p
      rfl
    rw [this, List.enum_map_snd]
  · rw [List.length_map, List.length_range]
  · intro v hv
    rw [List.mem_map] at hv
    obtain ⟨p, _, rfl⟩ := hv
    rfl
  · exact List.mem_append_left _ (List.mem_singleton_self _)
  · intro v hv
    refine List.mem_append_right _ ?_
    rw [List.mem_flatten]
    refine ⟨queueEffects niche v, List.mem_map_of_mem _ hv, ?_⟩
    have hpath : v.path = none := by
      rw [List.mem_map] at hv
      obtain ⟨p, _, rfl⟩ := hv
      rfl
    rw [queueEffects, hpath]
    exact List.mem_cons_self _ _

/-- A concrete script for the C7/C8 witnesses. -/
def wScript : Script :=
  { style := "hook", product := "Jasper", hook := "h", caption := "c",
    script := "s", hashtags := [], cta := "Link in bio" }

/-- Witness for C7 at one script with no encoder: the single result entry
has path None and its script is saved under content/scripts. -/
theorem C7_run_cycle_degraded_witness :
    ((run_cycle "n" "hook" false (fun _ _ => none) (fun _ _ => wScript)
        (fun _ => "T") 1).videos.length = 1) ∧
    CycleEffect.saveScriptJson ("content/scripts/" ++ "script_T_0" ++ ".json")
        wScript ∈
      (run_cycle "n" "hook" false (fun _ _ => none) (fun _ _ => wScript)
        (fun _ => "T") 1).effects := by
  have h := C7_run_cycle_degraded "n" "hook" (fun _ _ => none)
    (fun _ _ => wScript) (fun _ => "T") 1
  refine ⟨h.1, ?_⟩
  have hm : ({ path := none, script := wScript, content_id := "script_T_0" } :
      VideoResult) ∈ (run_cycle "n" "hook" false (fun _ _ => none)
        (fun _ _ => wScript) (fun _ => "T") 1).videos := by
    show _ ∈ cycleVideos false (fun _ _ => none) (fun _ => "T")
      ((List.range 1).map (fun i =>
        if i < 1 - 1 then (fun _ _ => wScript) "hook" i
        else (fun _ _ => wScript) "random" i))
    decide
  exact h.2.2.2.2.2 _ hm

/-- C8: the CLI takes a command word and an optional integer count:
`generate` defaults to 5 and `run` to 3; with an integer argument the
count is passed through; the generate loop emits exactly `count`
scripts, and a `run N` cycle generates N scripts (and creates N videos
when the encoder is available and every creation succeeds). -/
theorem C8_cli_dispatch (s : String) (n : Int) (genScript : Nat → Script)
    (niche preferredHook : String) (gen2 : String → Nat → Script)
    (createVideo : Nat → Script → Option String) (ts : Nat → String)
    (count : Nat) :
    (parseCliArgs ["generate"] = some (CliCmd.generate 5)) ∧
    (parseCliArgs ["run"] = some (CliCmd.run 3)) ∧
    (pyInt? s = some n → parseCliArgs ["generate", s] = some (CliCmd.generate n)) ∧
    (pyInt? s = some n → parseCliArgs ["run", s] = some (CliCmd.run n)) ∧
    ((generateScripts genScript count).length = count) ∧
    ((run_cycle niche preferredHook true createVideo gen2 ts count).scripts.length
      = count) ∧
    ((∀ i sc, (createVideo i sc).isSome) →
      (run_cycle niche preferredHook true createVideo gen2 ts
        count).videos.length = count) := by
  refine ⟨by decide, by decide, ?_, ?_, ?_, ?_, ?_⟩
  · intro h
    simp +decide [parseCliArgs, h]
  · intro h
    simp +decide [parseCliArgs, h]
  · simp [generateScripts]
  · rw [run_cycle]
    simp only []
    rw [List.length_map, List.length_range]
  · intro hall
    rw [run_cycle, cycleVideos]
    simp only [if_pos]
    rw [length_filterMap_of_forall_isSome, List.enum_length, List.length_map,
      List.length_range]
    intro p _
    have hp := hall p.1 p.2
    cases hx : createVideo p.1 p.2 with
    | none =>
        rw [hx] at hp
        simp at hp
    | some q => rfl

/-- Witness for C8 at concrete arguments: 'generate 7' parses to count 7,
a 2-iteration generate loop yields 2 scripts, and a 1-video cycle with an
always-succeeding encoder yields 1 video. -/
theorem C8_cli_dispatch_witness :
    (parseCliArgs ["generate", "7"] = some (CliCmd.generate 7)) ∧
    ((generateScripts (fun _ => wScript) 2).length = 2) ∧
    ((run_cycle "n" "hook" true (fun _ _ => some "v.mp4")
        (fun _ _ => wScript) (fun _ => "T") 1).videos.length = 1) := by
  have h := C8_cli_dispatch "7" 7 (fun _ => wScript) "n" "hook"
    (fun _ _ => wScript) (fun _ _ => some "v.mp4") (fun _ => "T") 1
  refine ⟨h.2.2.1 (by decide), ?_, h.2.2.2.2.2.2 (fun i sc => rfl)⟩
  exact (C8_cli_dispatch "7" 7 (fun _ => wScript) "n" "hook"
    (fun _ _ => wScript) (fun _ _ => some "v.mp4") (fun _ => "T") 2).2.2.2.2.1

end PassiveIncome
